import Mathlib

/-!
# helm-values-schemas: request pipeline and schema cache

A shallow embedding of `main.go`: the `SchemaCache` (a `map[string][]byte`
behind a `sync.RWMutex`), `downloadValuesFile`, `generateJSONSchema`,
`sendErrorResponse` and `handleSchemaRequest`.

Conventions of the embedding.

* A Go `[]byte` is a `List UInt8`; the `nil` slice and the empty slice are both
  `[]` (they are indistinguishable to `w.Write` and `len`).
* A Go `error` is its message (`err.Error()`), so `(T, error)` is `Except String T`.
* Calls that leave the program (the HTTP client, the file system, the schema
  library, URL parsing inside `http.NewRequest`) are fields of a `World` record:
  the handler is a function of the world it runs in.
* `log.Printf` / `log.Println` lines and the deferred `Close` / `Remove` calls
  have no effect on the values studied here and are left out.
-/

namespace HelmValuesSchemas

/-- Go `[]byte`. -/
abbrev Bytes := List UInt8

/-! ## SchemaCache (main.go 15-37) -/

/-- The `cache map[string][]byte` field of `SchemaCache`: an association list with
at most one entry per key. The `mu sync.RWMutex` field appears in the
thread-level model further down (`Shared.mu`). -/
structure SchemaCache where
  cache : List (String × Bytes)
deriving DecidableEq, Repr

/-- Embeds `NewSchemaCache`: `make(map[string][]byte)`. -/
def NewSchemaCache : SchemaCache :=
  { cache := [] }

/-- Embeds `(*SchemaCache).Get`: `schema, ok := c.cache[key]`; a missing key gives the zero
value `nil` and `false`. -/
def SchemaCache.Get (c : SchemaCache) (key : String) : Bytes × Bool :=
  match c.cache.lookup key with
  | some schema => (schema, true)
  | none => ([], false)

/-- Embeds `(*SchemaCache).Set`: `c.cache[key] = schema` (insert, or replace the entry of
`key`). -/
def SchemaCache.Set (c : SchemaCache) (key : String) (schema : Bytes) : SchemaCache :=
  { cache := (key, schema) :: c.cache.filter (fun p => p.1 != key) }

/-- A sequence of `Set` calls, applied left to right. -/
def applySets (c : SchemaCache) (ops : List (String × Bytes)) : SchemaCache :=
  ops.foldl (fun acc p => acc.Set p.1 p.2) c

/-! ## net/http constants -/

/-- Embeds `http.StatusOK`. -/
def http.StatusOK : Nat := 200

/-- Embeds `http.StatusBadRequest`. -/
def http.StatusBadRequest : Nat := 400

/-- Embeds `http.StatusMethodNotAllowed`. -/
def http.StatusMethodNotAllowed : Nat := 405

/-- Embeds `http.MethodGet`. -/
def http.MethodGet : String := "GET"

/-! ## The response writer -/

/-- Embeds `ErrorResponse` (main.go 39-42). -/
structure ErrorResponse where
  Error : String
  Message : String
deriving DecidableEq, Repr

/-- One write to the response body, recorded by the call that made it. -/
inductive Chunk where
  /-- Embeds `w.Write(b)` -/
  | bytes (b : Bytes)
  /-- Embeds `fmt.Fprintf(w, s)` with a format string without verbs -/
  | text (s : String)
  /-- Embeds `json.NewEncoder(w).Encode(e)` -/
  | json (e : ErrorResponse)
deriving DecidableEq, Repr

/-- The state of an `http.ResponseWriter`: the header map, the status line once it
has been written, and the body writes in order. -/
structure ResponseWriter where
  header : List (String × String)
  status : Option Nat
  body : List Chunk
deriving DecidableEq, Repr

/-- The writer handed to a handler by the server. -/
def ResponseWriter.fresh : ResponseWriter :=
  { header := [], status := none, body := [] }

/-- Embeds `w.Header().Set(key, value)`. -/
def ResponseWriter.HeaderSet (w : ResponseWriter) (key value : String) : ResponseWriter :=
  { w with header := (key, value) :: w.header.filter (fun p => p.1 != key) }

/-- Embeds `w.Header().Get(key)`; a missing header reads as `""`. -/
def ResponseWriter.HeaderGet (w : ResponseWriter) (key : String) : String :=
  (w.header.lookup key).getD ""

/-- Embeds `w.WriteHeader(statusCode)`; only the first call sets the status. -/
def ResponseWriter.WriteHeader (w : ResponseWriter) (statusCode : Nat) : ResponseWriter :=
  match w.status with
  | none => { w with status := some statusCode }
  | some _ => w

/-- A body write: it sends `200 OK` first when no status has been written yet. -/
def ResponseWriter.put (w : ResponseWriter) (c : Chunk) : ResponseWriter :=
  let w := w.WriteHeader http.StatusOK
  { w with body := w.body ++ [c] }

/-- Embeds `w.Write(b)`. -/
def ResponseWriter.Write (w : ResponseWriter) (b : Bytes) : ResponseWriter :=
  w.put (.bytes b)

/-- Embeds `fmt.Fprintf(w, s)`. -/
def ResponseWriter.Fprintf (w : ResponseWriter) (s : String) : ResponseWriter :=
  w.put (.text s)

/-- Embeds `json.NewEncoder(w).Encode(e)`. -/
def ResponseWriter.Encode (w : ResponseWriter) (e : ErrorResponse) : ResponseWriter :=
  w.put (.json e)

/-- Embeds `sendErrorResponse` (main.go 216-226). -/
def sendErrorResponse (w : ResponseWriter) (statusCode : Nat) (errorType message : String) :
    ResponseWriter :=
  let w := w.HeaderSet "Content-Type" "application/json"
  let w := w.WriteHeader statusCode
  let response : ErrorResponse := { Error := errorType, Message := message }
  w.Encode response

/-! ## The world outside the program -/

/-- An outgoing `*http.Request`. -/
structure Request where
  Method : String
  URL : String
  Header : List (String × String)
deriving DecidableEq, Repr

/-- Embeds `req.Header.Set(key, value)`. -/
def Request.HeaderSet (req : Request) (key value : String) : Request :=
  { req with Header := (key, value) :: req.Header.filter (fun p => p.1 != key) }

/-- What the program reads of an `*http.Response`: `StatusCode`, and the result of
`io.ReadAll(resp.Body)`. -/
structure Response where
  StatusCode : Nat
  Body : Except String Bytes

/-- Embeds `pkg.SchemaRoot`, the fields the program sets. -/
structure SchemaRoot where
  ID : String
  Title : String
  Description : String
  AdditionalProperties : Bool
deriving DecidableEq, Repr

/-- Embeds `pkg.Config`, the fields the program sets. -/
structure Config where
  Input : List String
  OutputPath : String
  Draft : Nat
  Indent : Nat
  SchemaRoot : SchemaRoot
deriving DecidableEq, Repr

/-- The calls that leave the program, each with the result it gives. -/
structure World where
  /-- Embeds `http.NewRequest(method, url, nil)` -/
  NewRequest : String → String → Except String Request
  /-- Embeds `httpClient.Do(req)` -/
  Do : Request → Except String Response
  /-- Embeds `os.CreateTemp(dir, pattern)`: the name of the file created -/
  CreateTemp : String → String → Except String String
  /-- Embeds `f.Write(b)` on the file of that name -/
  FileWrite : String → Bytes → Except String Unit
  /-- Embeds `pkg.GenerateJsonSchema(config)`: the error, if any -/
  GenerateJsonSchema : Config → Option String
  /-- Embeds `os.ReadFile(name)` -/
  ReadFile : String → Except String Bytes

/-! ## downloadValuesFile (main.go 48-82) -/

/-- Embeds `downloadValuesFile`: the returned pair is Go's `([]byte, error)`. -/
def downloadValuesFile (W : World) (valuesUrl : String) : Bytes × Option String :=
  let valuesUrl := "https://raw.githubusercontent.com" ++ valuesUrl
  match W.NewRequest "GET" valuesUrl with
  | .error err => ([], some ("failed to create request: " ++ err))
  | .ok req =>
    let req := req.HeaderSet "User-Agent" "helm-values-schema-generator/1.0"
    let req := req.HeaderSet "Accept" "text/plain, application/x-yaml, */*"
    match W.Do req with
    | .error err => ([], some ("failed to download file: " ++ err))
    | .ok resp =>
      if resp.StatusCode != http.StatusOK then
        ([], some ("failed to download file: HTTP " ++ toString resp.StatusCode))
      else
        match resp.Body with
        | .error err => ([], some ("failed to read response body: " ++ err))
        | .ok body => (body, none)

/-! ## generateJSONSchema (main.go 84-139) -/

/-- Embeds `generateJSONSchema`: the returned pair is Go's `([]byte, error)`. -/
def generateJSONSchema (W : World) (valuesUrl : String) (valuesContent : Bytes) :
    Bytes × Option String :=
  match W.CreateTemp "" "values-*.yaml" with
  | .error err => ([], some ("failed to create temp file: " ++ err))
  | .ok tmpFile =>
    match W.CreateTemp "" "values-*.schema.json" with
    | .error err => ([], some ("failed to create temp schema file: " ++ err))
    | .ok tmpSchemaFile =>
      match W.FileWrite tmpFile valuesContent with
      | .error err => ([], some ("failed to write temp file: " ++ err))
      | .ok _ =>
        let trueBoolFlag : Bool := true
        let config : Config :=
          { Input := [tmpFile]
            OutputPath := tmpSchemaFile
            Draft := 2020
            Indent := 4
            SchemaRoot :=
              { ID := "https://example.com/schema"
                Title := "Helm Values Schema"
                Description := "Generated Helm Values Schema for " ++ valuesUrl
                AdditionalProperties := trueBoolFlag } }
        match W.GenerateJsonSchema config with
        | some err => ([], some ("failed to generate schema: " ++ err))
        | none =>
          match W.ReadFile tmpSchemaFile with
          | .error err => ([], some ("failed to read generated schema file: " ++ err))
          | .ok schemaContent => (schemaContent, none)

/-! ## handleSchemaRequest (main.go 163-213) -/

/-- What the handler reads of the inbound `*http.Request`: `r.Method` and
`r.URL.Path`. -/
structure HttpRequest where
  Method : String
  Path : String
deriving DecidableEq, Repr

/-- The calls a handler run makes to the cache, the fetcher and the transformer,
in order. -/
inductive Event where
  /-- Embeds `cache.Get(key)` -/
  | cacheGet (key : String)
  /-- Embeds `cache.Set(key, schema)` -/
  | cacheSet (key : String) (schema : Bytes)
  /-- Embeds `downloadValuesFile(valuesUrl)` -/
  | download (valuesUrl : String)
  /-- Embeds `generateJSONSchema(valuesUrl, valuesContent)` -/
  | generate (valuesUrl : String) (valuesContent : Bytes)
deriving DecidableEq, Repr

/-- The result of one handler run: the response written, the cache afterwards, and
the calls made. -/
structure Outcome where
  w : ResponseWriter
  cache : SchemaCache
  trace : List Event
deriving DecidableEq, Repr

/-- Embeds `handleSchemaRequest`. -/
def handleSchemaRequest (W : World) (w : ResponseWriter) (r : HttpRequest)
    (cache : SchemaCache) : Outcome :=
  -- Only allow GET requests
  if r.Method != http.MethodGet then
    { w := sendErrorResponse w http.StatusMethodNotAllowed "method_not_allowed"
        "Only GET method is allowed"
      cache := cache
      trace := [] }
  else
    let valuesUrl := r.Path
    -- Validate parameters
    if valuesUrl == "/" then
      { w := (w.WriteHeader http.StatusOK).Fprintf "Hello World"
        cache := cache
        trace := [] }
    else
      -- Create a cache key
      let cacheKey := valuesUrl
      -- Check if schema is in cache
      match cache.Get cacheKey with
      | (schema, true) =>
        { w := ((w.HeaderSet "Content-Type" "application/schema+json").WriteHeader
            http.StatusOK).Write schema
          cache := cache
          trace := [.cacheGet cacheKey] }
      | (_, false) =>
        -- Download the value file
        match downloadValuesFile W valuesUrl with
        | (_, some err) =>
          { w := sendErrorResponse w http.StatusBadRequest "download_failed"
              ("Failed to download values file: " ++ err)
            cache := cache
            trace := [.cacheGet cacheKey, .download valuesUrl] }
        | (valuesContent, none) =>
          -- the error of this call is assigned and never read
          let (schema, _err) := generateJSONSchema W valuesUrl valuesContent
          -- Cache the result
          let cache := cache.Set cacheKey schema
          -- Return the schema
          { w := ((w.HeaderSet "Content-Type" "application/schema+json").WriteHeader
              http.StatusOK).Write schema
            cache := cache
            trace := [.cacheGet cacheKey, .download valuesUrl,
              .generate valuesUrl valuesContent, .cacheSet cacheKey schema] }

/-- Whether a run called the fetcher or the transformer. -/
def Event.isFetchOrTransform : Event → Bool
  | .download _ => true
  | .generate _ _ => true
  | _ => false

/-- Whether a run wrote to the cache. -/
def Event.isSet : Event → Bool
  | .cacheSet _ _ => true
  | _ => false

/-- The text `s` occurs in `msg`. -/
def occursIn (s msg : String) : Prop :=
  s.data <:+: msg.data

/-! ## Two concurrent calls of `Set` (main.go 33-37)

Each call runs its statements in order; a schedule picks which call takes the next
step. The map assignment of line 36 is not atomic: it is a read of the map followed
by a write of the updated map, with the other call free to run in between. -/

/-- The state of a `sync.RWMutex`: whether a writer holds it, and how many readers
hold it. -/
structure RWMutex where
  writer : Bool
  readers : Nat
deriving DecidableEq, Repr

/-- Embeds `mu.Lock()`: it returns once no writer and no reader holds the mutex; `none`
when the caller stays blocked. -/
def RWMutex.Lock (mu : RWMutex) : Option RWMutex :=
  if mu.writer = false ∧ mu.readers = 0 then some { mu with writer := true } else none

/-- Embeds `mu.Unlock()`. -/
def RWMutex.Unlock (mu : RWMutex) : RWMutex :=
  { mu with writer := false }

/-- The `*SchemaCache` object shared by the calls: the mutex and the map. -/
structure Shared where
  mu : RWMutex
  c : SchemaCache
deriving DecidableEq, Repr

/-- Where a call of `Set` stands. -/
inductive SetPC where
  /-- Line 34: in `c.mu.Lock()`, not yet returned. -/
  | atLock
  /-- Line 36: the lock is held, the assignment has not started. -/
  | atAssign
  /-- Line 36: the assignment has read the map `m` and not yet written. -/
  | assigning (m : SchemaCache)
  /-- Line 37: the assignment is done, the deferred `c.mu.Unlock()` is pending. -/
  | atUnlock
  /-- The call has returned. -/
  | returned
deriving DecidableEq, Repr

/-- One call `c.Set(key, schema)` in progress. -/
structure SetCall where
  key : String
  schema : Bytes
  pc : SetPC
deriving DecidableEq, Repr

/-- One step of a call of `Set`; a call blocked in `Lock` does not move. -/
def SetCall.step (t : SetCall) (sh : Shared) : Shared × SetCall :=
  match t.pc with
  | .atLock =>
    match sh.mu.Lock with
    | some mu => ({ sh with mu := mu }, { t with pc := .atAssign })
    | none => (sh, t)
  | .atAssign => (sh, { t with pc := .assigning sh.c })
  | .assigning m => ({ sh with c := m.Set t.key t.schema }, { t with pc := .atUnlock })
  | .atUnlock => ({ sh with mu := sh.mu.Unlock }, { t with pc := .returned })
  | .returned => (sh, t)

/-- Two calls of `Set` running against one cache. -/
structure System where
  sh : Shared
  t1 : SetCall
  t2 : SetCall
deriving DecidableEq, Repr

/-- The scheduler lets the first call (`false`) or the second call (`true`) take a
step. -/
def System.step (s : System) (second : Bool) : System :=
  if second then
    let (sh, t) := s.t2.step s.sh
    { s with sh := sh, t2 := t }
  else
    let (sh, t) := s.t1.step s.sh
    { s with sh := sh, t1 := t }

/-- Run a schedule. -/
def System.run (s : System) (sched : List Bool) : System :=
  sched.foldl System.step s

/-- Both calls about to start on cache `c`, the mutex free. -/
def System.init (c : SchemaCache) (k1 : String) (a1 : Bytes) (k2 : String) (a2 : Bytes) :
    System :=
  { sh := { mu := { writer := false, readers := 0 }, c := c }
    t1 := { key := k1, schema := a1, pc := .atLock }
    t2 := { key := k2, schema := a2, pc := .atLock } }

/-- A call is between `Lock` and `Unlock`. -/
def SetPC.inCritical : SetPC → Bool
  | .atAssign => true
  | .assigning _ => true
  | .atUnlock => true
  | _ => false

/-- A call has done its map assignment. -/
def SetPC.wrote : SetPC → Bool
  | .atUnlock => true
  | .returned => true
  | _ => false

/-- The invariant of two calls `Set(k1, a1)` and `Set(k2, a2)`: the calls keep their
arguments; the mutex is held by a writer exactly while a call is between `Lock` and
`Unlock`, and never by both; a map read by a call in its assignment is still the
shared map; a call that has assigned has its artifact in the map. -/
def SetsInv (k1 : String) (a1 : Bytes) (k2 : String) (a2 : Bytes) (s : System) : Prop :=
  s.t1.key = k1 ∧ s.t1.schema = a1 ∧ s.t2.key = k2 ∧ s.t2.schema = a2 ∧
  s.sh.mu.readers = 0 ∧
  s.sh.mu.writer = (s.t1.pc.inCritical || s.t2.pc.inCritical) ∧
  (s.t1.pc.inCritical && s.t2.pc.inCritical) = false ∧
  (∀ m, s.t1.pc = .assigning m → m = s.sh.c) ∧
  (∀ m, s.t2.pc = .assigning m → m = s.sh.c) ∧
  (s.t1.pc.wrote = true → s.sh.c.Get k1 = (a1, true)) ∧
  (s.t2.pc.wrote = true → s.sh.c.Get k2 = (a2, true))

/-! ## Concrete worlds and requests, used to run the definitions -/

/-- A world in which the remote origin answers every request with `status` and
`body`, temporary files can be created and written, the schema library reports
`genErr`, and the generated file holds `schema`. -/
def worldServing (status : Nat) (body : Bytes) (genErr : Option String) (schema : Bytes) :
    World :=
  { NewRequest := fun method url => .ok { Method := method, URL := url, Header := [] }
    Do := fun _ => .ok { StatusCode := status, Body := .ok body }
    CreateTemp := fun _ pattern => .ok ("/tmp/" ++ pattern)
    FileWrite := fun _ _ => .ok ()
    GenerateJsonSchema := fun _ => genErr
    ReadFile := fun _ => .ok schema }

/-- A world in which the HTTP client fails before any response arrives. -/
def worldOffline : World :=
  { worldServing 0 [] none [] with Do := fun _ => .error "dial tcp: i/o timeout" }

/-- The success class of response statuses in the words of the spec, whose section 7
names a non-2xx status as the failure: the statuses 200 to 299. The code has no such
test; `downloadValuesFile` compares with `http.StatusOK` alone. -/
def specSuccessStatus (statusCode : Nat) : Bool :=
  200 ≤ statusCode && statusCode < 300

/-- The request `GET path`. -/
def getRequest (path : String) : HttpRequest :=
  { Method := "GET", Path := path }

/-! ## Cache lemmas -/

theorem lookup_filter_ne (l : List (String × Bytes)) (k k' : String) (h : k' ≠ k) :
    (l.filter (fun p => p.1 != k')).lookup k = l.lookup k := by
  induction l with
  | nil => rfl
  | cons p l ih =>
    obtain ⟨a, b⟩ := p
    by_cases hak' : a = k'
    · subst hak'
      have hka : (k == a) = false := by simpa using fun h' : k = a => h h'.symm
      simp [List.filter, List.lookup, hka, ih]
    · have hne : (a != k') = true := by simpa using hak'
      by_cases hka : k = a
      · subst hka
        simp [List.filter, List.lookup, hne]
      · have hka' : (k == a) = false := by simpa using hka
        simp [List.filter, List.lookup, hne, hka', ih]

theorem Get_Set_same (c : SchemaCache) (k : String) (a : Bytes) :
    (c.Set k a).Get k = (a, true) := by
  simp [SchemaCache.Set, SchemaCache.Get, List.lookup]

theorem Get_Set_other (c : SchemaCache) (k k' : String) (a : Bytes) (h : k' ≠ k) :
    (c.Set k' a).Get k = c.Get k := by
  have hk : (k == k') = false := by simpa using fun h' : k = k' => h h'.symm
  simp [SchemaCache.Set, SchemaCache.Get, List.lookup, hk, lookup_filter_ne _ _ _ h]

theorem Get_NewSchemaCache (k : String) : NewSchemaCache.Get k = ([], false) := rfl

theorem Get_applySets_other (ops : List (String × Bytes)) (c : SchemaCache) (k : String)
    (h : ∀ p ∈ ops, p.1 ≠ k) : (applySets c ops).Get k = c.Get k := by
  induction ops generalizing c with
  | nil => rfl
  | cons p ops ih =>
    have h1 : p.1 ≠ k := h p (List.mem_cons_self _ _)
    have h2 : ∀ q ∈ ops, q.1 ≠ k := fun q hq => h q (List.mem_cons_of_mem _ hq)
    show (applySets (c.Set p.1 p.2) ops).Get k = c.Get k
    rw [ih _ h2, Get_Set_other _ _ _ _ h1]

/-! ## Runs of the definitions on concrete inputs -/

theorem run_Get_after_Set :
    (NewSchemaCache.Set "/a" [1, 2]).Get "/a" = ([1, 2], true) := by
  decide

theorem run_Set_replaces :
    ((NewSchemaCache.Set "/a" [1, 2]).Set "/a" [3]).cache = [("/a", [3])] := by
  decide

theorem run_download_404 :
    downloadValuesFile (worldServing 404 [] none []) "/o/r/main/values.yaml"
      = ([], some "failed to download file: HTTP 404") := by
  decide

theorem run_download_offline :
    downloadValuesFile worldOffline "/o/r/main/values.yaml"
      = ([], some "failed to download file: dial tcp: i/o timeout") := by
  decide

theorem run_download_200 :
    downloadValuesFile (worldServing 200 [7, 8] none []) "/o/r/main/values.yaml"
      = ([7, 8], none) := by
  decide

theorem run_generate_error :
    generateJSONSchema (worldServing 200 [7, 8] (some "yaml: bad") [9]) "/k" [7, 8]
      = ([], some "failed to generate schema: yaml: bad") := by
  decide

theorem run_handle_miss :
    handleSchemaRequest (worldServing 200 [7, 8] none [9]) .fresh (getRequest "/k")
        NewSchemaCache
      = { w := { header := [("Content-Type", "application/schema+json")]
                 status := some 200
                 body := [.bytes [9]] }
          cache := { cache := [("/k", [9])] }
          trace := [.cacheGet "/k", .download "/k", .generate "/k" [7, 8],
            .cacheSet "/k" [9]] } := by
  decide

/-! ## Handler lemmas: one per path through `handleSchemaRequest` -/

theorem handle_not_get (W : World) (w : ResponseWriter) (r : HttpRequest) (cache : SchemaCache)
    (hm : r.Method ≠ http.MethodGet) :
    handleSchemaRequest W w r cache =
      { w := sendErrorResponse w http.StatusMethodNotAllowed "method_not_allowed"
          "Only GET method is allowed"
        cache := cache
        trace := [] } := by
  simp [handleSchemaRequest, hm]

theorem handle_root (W : World) (w : ResponseWriter) (r : HttpRequest) (cache : SchemaCache)
    (hm : r.Method = http.MethodGet) (hp : r.Path = "/") :
    handleSchemaRequest W w r cache =
      { w := (w.WriteHeader http.StatusOK).Fprintf "Hello World"
        cache := cache
        trace := [] } := by
  simp [handleSchemaRequest, hm, hp]

theorem handle_hit (W : World) (w : ResponseWriter) (r : HttpRequest) (cache : SchemaCache)
    (a : Bytes) (hm : r.Method = http.MethodGet) (hp : r.Path ≠ "/")
    (hc : cache.Get r.Path = (a, true)) :
    handleSchemaRequest W w r cache =
      { w := ((w.HeaderSet "Content-Type" "application/schema+json").WriteHeader
          http.StatusOK).Write a
        cache := cache
        trace := [.cacheGet r.Path] } := by
  simp [handleSchemaRequest, hm, hp, hc]

theorem handle_download_failed (W : World) (w : ResponseWriter) (r : HttpRequest)
    (cache : SchemaCache) (err : String) (hm : r.Method = http.MethodGet) (hp : r.Path ≠ "/")
    (hc : (cache.Get r.Path).2 = false) (hd : (downloadValuesFile W r.Path).2 = some err) :
    handleSchemaRequest W w r cache =
      { w := sendErrorResponse w http.StatusBadRequest "download_failed"
          ("Failed to download values file: " ++ err)
        cache := cache
        trace := [.cacheGet r.Path, .download r.Path] } := by
  rcases hg : cache.Get r.Path with ⟨b, f⟩
  rcases hdl : downloadValuesFile W r.Path with ⟨v, e⟩
  simp only [hg] at hc
  simp only [hdl] at hd
  subst hc hd
  simp [handleSchemaRequest, hm, hp, hg, hdl]

theorem handle_miss (W : World) (w : ResponseWriter) (r : HttpRequest)
    (cache : SchemaCache) (valuesContent : Bytes) (hm : r.Method = http.MethodGet)
    (hp : r.Path ≠ "/") (hc : (cache.Get r.Path).2 = false)
    (hd : downloadValuesFile W r.Path = (valuesContent, none)) :
    handleSchemaRequest W w r cache =
      { w := ((w.HeaderSet "Content-Type" "application/schema+json").WriteHeader
          http.StatusOK).Write (generateJSONSchema W r.Path valuesContent).1
        cache := cache.Set r.Path (generateJSONSchema W r.Path valuesContent).1
        trace := [.cacheGet r.Path, .download r.Path, .generate r.Path valuesContent,
          .cacheSet r.Path (generateJSONSchema W r.Path valuesContent).1] } := by
  rcases hg : cache.Get r.Path with ⟨b, f⟩
  simp only [hg] at hc
  subst hc
  simp [handleSchemaRequest, hm, hp, hg, hd]

theorem occursIn_append_right (pre s : String) : occursIn s (pre ++ s) :=
  ⟨pre.data, [], by simp⟩

/-! ## The cache contract -/

/-- C3: for every cache state, key `k` and artifacts `a`, `a2`: after `Set(k, a)`,
`Get(k)` returns `(a, true)`; after a further `Set(k, a2)`, `Get(k)` returns
`(a2, true)`. -/
theorem C3_get_after_set (c : SchemaCache) (k : String) (a a2 : Bytes) :
    (c.Set k a).Get k = (a, true) ∧ ((c.Set k a).Set k a2).Get k = (a2, true) :=
  ⟨Get_Set_same c k a, Get_Set_same (c.Set k a) k a2⟩

/-- C9: for every key `k`, `Get(k)` returns not-found on the cache made by
`NewSchemaCache` and on every cache obtained from it by `Set` calls on keys other
than `k`. -/
theorem C9_get_without_set (k : String) (ops : List (String × Bytes))
    (h : ∀ p ∈ ops, p.1 ≠ k) :
    (applySets NewSchemaCache ops).Get k = ([], false) := by
  rw [Get_applySets_other ops NewSchemaCache k h, Get_NewSchemaCache]

/-- C9 at the key `/a`, after three `Set` calls on the keys `/b` and `/c`. -/
theorem C9_get_without_set_witness :
    (∀ p ∈ [("/b", ([1] : Bytes)), ("/c", [2, 3]), ("/b", [])], p.1 ≠ "/a") ∧
      (applySets NewSchemaCache [("/b", [1]), ("/c", [2, 3]), ("/b", [])]).Get "/a"
        = ([], false) :=
  ⟨by decide, C9_get_without_set "/a" [("/b", [1]), ("/c", [2, 3]), ("/b", [])] (by decide)⟩

/-! ## The fetcher -/

/-- C8, as stated, fails: the remote origin answers 201, a success status, with a
body that is read in full, and `downloadValuesFile` returns no bytes and the error
`failed to download file: HTTP 201` instead of the body. -/
theorem C8_status_201_counterexample :
    (∃ resp, (worldServing 201 [7, 8] none []).Do
        { Method := "GET"
          URL := "https://raw.githubusercontent.com/o/r/main/values.yaml"
          Header := [("Accept", "text/plain, application/x-yaml, */*"),
            ("User-Agent", "helm-values-schema-generator/1.0")] } = .ok resp ∧
      specSuccessStatus resp.StatusCode = true ∧ resp.Body = .ok [7, 8]) ∧
    downloadValuesFile (worldServing 201 [7, 8] none []) "/o/r/main/values.yaml"
      = ([], some "failed to download file: HTTP 201") ∧
    downloadValuesFile (worldServing 201 [7, 8] none []) "/o/r/main/values.yaml"
      ≠ ([7, 8], none) :=
  ⟨⟨{ StatusCode := 201, Body := .ok [7, 8] }, rfl, rfl, rfl⟩, by decide, by decide⟩

/-- C8, amended: once the request is built and the client returns a response, every
status other than `http.StatusOK` (so every non-success status) makes
`downloadValuesFile` return no bytes and an error whose message contains the decimal
status code; with status `http.StatusOK` and a body read in full, it returns exactly
the body and no error. -/
theorem C8_download_by_status (W : World) (valuesUrl : String) (req : Request)
    (resp : Response)
    (hreq : W.NewRequest "GET" ("https://raw.githubusercontent.com" ++ valuesUrl) = .ok req)
    (hdo : W.Do ((req.HeaderSet "User-Agent" "helm-values-schema-generator/1.0").HeaderSet
      "Accept" "text/plain, application/x-yaml, */*") = .ok resp) :
    (resp.StatusCode ≠ http.StatusOK →
      ∃ msg, downloadValuesFile W valuesUrl = ([], some msg) ∧
        occursIn (toString resp.StatusCode) msg) ∧
    (resp.StatusCode = http.StatusOK → ∀ body, resp.Body = .ok body →
      downloadValuesFile W valuesUrl = (body, none)) := by
  constructor
  · intro hs
    refine ⟨"failed to download file: HTTP " ++ toString resp.StatusCode, ?_,
      occursIn_append_right _ _⟩
    simp [downloadValuesFile, hreq, hdo, hs]
  · intro hs body hb
    simp [downloadValuesFile, hreq, hdo, hs, hb]

/-- C8, amended, at an upstream 404 and at an upstream 200 with a two-byte body. -/
theorem C8_download_by_status_witness :
    (∃ msg, downloadValuesFile (worldServing 404 [] none []) "/o/r/main/values.yaml"
        = ([], some msg) ∧ occursIn "404" msg) ∧
      downloadValuesFile (worldServing 200 [7, 8] none []) "/o/r/main/values.yaml"
        = ([7, 8], none) :=
  ⟨(C8_download_by_status (worldServing 404 [] none []) "/o/r/main/values.yaml" _
      { StatusCode := 404, Body := .ok [] } rfl rfl).1 (by decide),
    (C8_download_by_status (worldServing 200 [7, 8] none []) "/o/r/main/values.yaml" _
      { StatusCode := 200, Body := .ok [7, 8] } rfl rfl).2 rfl [7, 8] rfl⟩

/-! ## The request pipeline -/

/-- C5: for every request whose method is not GET, whatever its path and the cache
state, the handler answers 405 with the envelope tagged `method_not_allowed`, makes
no call to the cache, the fetcher or the transformer, and leaves the cache as it
was. -/
theorem C5_method_not_allowed (W : World) (r : HttpRequest) (cache : SchemaCache)
    (hm : r.Method ≠ http.MethodGet) :
    (handleSchemaRequest W .fresh r cache).w.status = some http.StatusMethodNotAllowed ∧
    (handleSchemaRequest W .fresh r cache).w.body
      = [.json { Error := "method_not_allowed", Message := "Only GET method is allowed" }] ∧
    (handleSchemaRequest W .fresh r cache).trace = [] ∧
    (handleSchemaRequest W .fresh r cache).cache = cache := by
  rw [handle_not_get W _ r cache hm]
  exact ⟨rfl, rfl, rfl, rfl⟩

/-- C5 at `POST /k` with `/k` already cached. -/
theorem C5_method_not_allowed_witness :
    ({ Method := "POST", Path := "/k" } : HttpRequest).Method ≠ http.MethodGet ∧
    (handleSchemaRequest worldOffline .fresh { Method := "POST", Path := "/k" }
      (NewSchemaCache.Set "/k" [1])).w.status = some http.StatusMethodNotAllowed ∧
    (handleSchemaRequest worldOffline .fresh { Method := "POST", Path := "/k" }
      (NewSchemaCache.Set "/k" [1])).w.body
      = [.json { Error := "method_not_allowed", Message := "Only GET method is allowed" }] ∧
    (handleSchemaRequest worldOffline .fresh { Method := "POST", Path := "/k" }
      (NewSchemaCache.Set "/k" [1])).trace = [] ∧
    (handleSchemaRequest worldOffline .fresh { Method := "POST", Path := "/k" }
      (NewSchemaCache.Set "/k" [1])).cache = NewSchemaCache.Set "/k" [1] :=
  ⟨by decide, C5_method_not_allowed worldOffline { Method := "POST", Path := "/k" }
    (NewSchemaCache.Set "/k" [1]) (by decide)⟩

/-- C6, as stated, fails: the request `POST /` has the root path and is answered 405
with the `method_not_allowed` envelope, not 200 with the greeting. -/
theorem C6_root_path_post_counterexample :
    ({ Method := "POST", Path := "/" } : HttpRequest).Path = "/" ∧
    (handleSchemaRequest worldOffline .fresh { Method := "POST", Path := "/" }
      NewSchemaCache).w.status = some http.StatusMethodNotAllowed ∧
    (handleSchemaRequest worldOffline .fresh { Method := "POST", Path := "/" }
      NewSchemaCache).w.status ≠ some http.StatusOK ∧
    (handleSchemaRequest worldOffline .fresh { Method := "POST", Path := "/" }
      NewSchemaCache).w.body ≠ [.text "Hello World"] := by
  decide

/-- C6, amended: for every GET request whose path is the root path `/`, and for every
cache state, the handler answers status 200 with the body `Hello World`; it makes no
call to the cache, the fetcher or the transformer and leaves the cache as it was. -/
theorem C6_get_root_greeting (W : World) (r : HttpRequest) (cache : SchemaCache)
    (hm : r.Method = http.MethodGet) (hp : r.Path = "/") :
    (handleSchemaRequest W .fresh r cache).w.status = some http.StatusOK ∧
    (handleSchemaRequest W .fresh r cache).w.body = [.text "Hello World"] ∧
    (handleSchemaRequest W .fresh r cache).trace = [] ∧
    (handleSchemaRequest W .fresh r cache).cache = cache := by
  rw [handle_root W _ r cache hm hp]
  exact ⟨rfl, rfl, rfl, rfl⟩

/-- C6, amended, at `GET /` with an entry cached under `/`. -/
theorem C6_get_root_greeting_witness :
    (getRequest "/").Method = http.MethodGet ∧ (getRequest "/").Path = "/" ∧
    (handleSchemaRequest worldOffline .fresh (getRequest "/")
      (NewSchemaCache.Set "/" [1])).w.status = some http.StatusOK ∧
    (handleSchemaRequest worldOffline .fresh (getRequest "/")
      (NewSchemaCache.Set "/" [1])).w.body = [.text "Hello World"] ∧
    (handleSchemaRequest worldOffline .fresh (getRequest "/")
      (NewSchemaCache.Set "/" [1])).trace = [] ∧
    (handleSchemaRequest worldOffline .fresh (getRequest "/")
      (NewSchemaCache.Set "/" [1])).cache = NewSchemaCache.Set "/" [1] :=
  ⟨rfl, rfl, C6_get_root_greeting worldOffline (getRequest "/") (NewSchemaCache.Set "/" [1])
    rfl rfl⟩

/-- C7: for every GET request with a non-root path `k` and every cache holding `a`
under `k`, the handler answers status 200, content type `application/schema+json`
and body exactly `a`; its only call is `cache.Get(k)` (no fetch, no transform, no
`Set`) and the cache is as it was. -/
theorem C7_cache_hit (W : World) (r : HttpRequest) (cache : SchemaCache) (a : Bytes)
    (hm : r.Method = http.MethodGet) (hp : r.Path ≠ "/")
    (hc : cache.Get r.Path = (a, true)) :
    (handleSchemaRequest W .fresh r cache).w.status = some http.StatusOK ∧
    (handleSchemaRequest W .fresh r cache).w.HeaderGet "Content-Type"
      = "application/schema+json" ∧
    (handleSchemaRequest W .fresh r cache).w.body = [.bytes a] ∧
    (handleSchemaRequest W .fresh r cache).trace = [.cacheGet r.Path] ∧
    (∀ e ∈ (handleSchemaRequest W .fresh r cache).trace,
      e.isFetchOrTransform = false ∧ e.isSet = false) ∧
    (handleSchemaRequest W .fresh r cache).cache = cache := by
  rw [handle_hit W _ r cache a hm hp hc]
  refine ⟨rfl, rfl, rfl, rfl, ?_, rfl⟩
  intro e he
  simp only [List.mem_singleton] at he
  subst he
  exact ⟨rfl, rfl⟩

/-- C7 at `GET /k` with `/k` cached, in a world without network. -/
theorem C7_cache_hit_witness :
    (getRequest "/k").Method = http.MethodGet ∧ (getRequest "/k").Path ≠ "/" ∧
    (NewSchemaCache.Set "/k" [1, 2]).Get (getRequest "/k").Path = ([1, 2], true) ∧
    (handleSchemaRequest worldOffline .fresh (getRequest "/k")
      (NewSchemaCache.Set "/k" [1, 2])).w.body = [.bytes [1, 2]] :=
  ⟨rfl, by decide, by decide,
    (C7_cache_hit worldOffline (getRequest "/k") (NewSchemaCache.Set "/k" [1, 2]) [1, 2]
      rfl (by decide) (by decide)).2.2.1⟩

/-- C2: for every GET request with a non-root path `k` absent from the cache, and
every failure `err` of `downloadValuesFile`, the handler answers status 400 with the
envelope tagged `download_failed` whose message contains `err`; it makes no `Set`,
the cache is as it was and `Get(k)` is still not-found. -/
theorem C2_download_failed (W : World) (r : HttpRequest) (cache : SchemaCache) (err : String)
    (hm : r.Method = http.MethodGet) (hp : r.Path ≠ "/")
    (hc : (cache.Get r.Path).2 = false) (hd : (downloadValuesFile W r.Path).2 = some err) :
    (handleSchemaRequest W .fresh r cache).w.status = some http.StatusBadRequest ∧
    (∃ msg, (handleSchemaRequest W .fresh r cache).w.body
        = [.json { Error := "download_failed", Message := msg }] ∧ occursIn err msg) ∧
    (∀ e ∈ (handleSchemaRequest W .fresh r cache).trace, e.isSet = false) ∧
    (handleSchemaRequest W .fresh r cache).cache = cache ∧
    ((handleSchemaRequest W .fresh r cache).cache.Get r.Path).2 = false := by
  rw [handle_download_failed W _ r cache err hm hp hc hd]
  refine ⟨rfl, ⟨_, rfl, occursIn_append_right _ _⟩, ?_, rfl, hc⟩
  intro e he
  simp only [List.mem_cons, List.mem_singleton, List.not_mem_nil, or_false] at he
  rcases he with he | he <;> subst he <;> rfl

/-- C2 at `GET /org/repo/main/values.yaml` on an empty cache with an upstream 404. -/
theorem C2_download_failed_witness :
    (getRequest "/org/repo/main/values.yaml").Method = http.MethodGet ∧
    (getRequest "/org/repo/main/values.yaml").Path ≠ "/" ∧
    (NewSchemaCache.Get (getRequest "/org/repo/main/values.yaml").Path).2 = false ∧
    (downloadValuesFile (worldServing 404 [] none [])
      (getRequest "/org/repo/main/values.yaml").Path).2
      = some "failed to download file: HTTP 404" ∧
    (handleSchemaRequest (worldServing 404 [] none []) .fresh
      (getRequest "/org/repo/main/values.yaml") NewSchemaCache).w.status
      = some http.StatusBadRequest ∧
    ((handleSchemaRequest (worldServing 404 [] none []) .fresh
      (getRequest "/org/repo/main/values.yaml") NewSchemaCache).cache.Get
      (getRequest "/org/repo/main/values.yaml").Path).2 = false :=
  ⟨rfl, by decide, rfl, by decide,
    (C2_download_failed (worldServing 404 [] none [])
      (getRequest "/org/repo/main/values.yaml") NewSchemaCache
      "failed to download file: HTTP 404" rfl (by decide) rfl (by decide)).1,
    (C2_download_failed (worldServing 404 [] none [])
      (getRequest "/org/repo/main/values.yaml") NewSchemaCache
      "failed to download file: HTTP 404" rfl (by decide) rfl (by decide)).2.2.2.2⟩

/-- C4: for every key `k` not in the cache, when a first GET for `k` completes with a
successful fetch and transform, a second GET for `k` run on the resulting cache makes
no call to the fetcher or the transformer (its only call is `cache.Get(k)`), and its
body is the artifact the first request returned. -/
theorem C4_second_request_from_cache (W1 W2 : World) (cache : SchemaCache) (k : String)
    (content schema : Bytes) (hk : k ≠ "/") (hc : (cache.Get k).2 = false)
    (hd : downloadValuesFile W1 k = (content, none))
    (hg : generateJSONSchema W1 k content = (schema, none)) :
    (handleSchemaRequest W1 .fresh (getRequest k) cache).w.body = [.bytes schema] ∧
    (handleSchemaRequest W2 .fresh (getRequest k)
      (handleSchemaRequest W1 .fresh (getRequest k) cache).cache).trace = [.cacheGet k] ∧
    (∀ e ∈ (handleSchemaRequest W2 .fresh (getRequest k)
      (handleSchemaRequest W1 .fresh (getRequest k) cache).cache).trace,
      e.isFetchOrTransform = false) ∧
    (handleSchemaRequest W2 .fresh (getRequest k)
      (handleSchemaRequest W1 .fresh (getRequest k) cache).cache).w.status
      = some http.StatusOK ∧
    (handleSchemaRequest W2 .fresh (getRequest k)
      (handleSchemaRequest W1 .fresh (getRequest k) cache).cache).w.body
      = (handleSchemaRequest W1 .fresh (getRequest k) cache).w.body := by
  have h1 := handle_miss W1 .fresh (getRequest k) cache content rfl hk hc hd
  rw [show (getRequest k).Path = k from rfl, hg] at h1
  have hget : (cache.Set k schema).Get (getRequest k).Path = (schema, true) :=
    Get_Set_same cache k schema
  have h2 := handle_hit W2 .fresh (getRequest k) (cache.Set k schema) schema rfl hk hget
  rw [show (getRequest k).Path = k from rfl] at h2
  rw [h1]
  dsimp only
  rw [h2]
  refine ⟨rfl, rfl, ?_, rfl, rfl⟩
  intro e he
  simp only [List.mem_singleton] at he
  subst he
  rfl

/-- C4 at the key `/k`: the second request runs in a world without network. -/
theorem C4_second_request_from_cache_witness :
    "/k" ≠ "/" ∧ (NewSchemaCache.Get "/k").2 = false ∧
    downloadValuesFile (worldServing 200 [7, 8] none [9]) "/k" = ([7, 8], none) ∧
    generateJSONSchema (worldServing 200 [7, 8] none [9]) "/k" [7, 8] = ([9], none) ∧
    (handleSchemaRequest worldOffline .fresh (getRequest "/k")
      (handleSchemaRequest (worldServing 200 [7, 8] none [9]) .fresh (getRequest "/k")
        NewSchemaCache).cache).trace = [.cacheGet "/k"] :=
  ⟨by decide, rfl, by decide, by decide,
    (C4_second_request_from_cache (worldServing 200 [7, 8] none [9]) worldOffline
      NewSchemaCache "/k" [7, 8] [9] (by decide) rfl (by decide) (by decide)).2.1⟩

/-- C1, on the code: with the key absent, the fetch succeeding and the transform
failing, the handler still calls `cache.Set(k, nil)` and answers status 200 with
content type `application/schema+json` and an empty body; afterwards `Get(k)` is
found. -/
theorem C1_transform_error_cached_and_served :
    (NewSchemaCache.Get "/org/repo/main/values.yaml").2 = false ∧
    downloadValuesFile (worldServing 200 [97, 58, 32, 91] (some "yaml: line 1") [])
      "/org/repo/main/values.yaml" = ([97, 58, 32, 91], none) ∧
    generateJSONSchema (worldServing 200 [97, 58, 32, 91] (some "yaml: line 1") [])
      "/org/repo/main/values.yaml" [97, 58, 32, 91]
      = ([], some "failed to generate schema: yaml: line 1") ∧
    (handleSchemaRequest (worldServing 200 [97, 58, 32, 91] (some "yaml: line 1") [])
      .fresh (getRequest "/org/repo/main/values.yaml") NewSchemaCache).trace
      = [.cacheGet "/org/repo/main/values.yaml", .download "/org/repo/main/values.yaml",
          .generate "/org/repo/main/values.yaml" [97, 58, 32, 91],
          .cacheSet "/org/repo/main/values.yaml" []] ∧
    (handleSchemaRequest (worldServing 200 [97, 58, 32, 91] (some "yaml: line 1") [])
      .fresh (getRequest "/org/repo/main/values.yaml") NewSchemaCache).cache.Get
      "/org/repo/main/values.yaml" = ([], true) ∧
    (handleSchemaRequest (worldServing 200 [97, 58, 32, 91] (some "yaml: line 1") [])
      .fresh (getRequest "/org/repo/main/values.yaml") NewSchemaCache).w
      = { header := [("Content-Type", "application/schema+json")]
          status := some http.StatusOK
          body := [.bytes []] } := by
  decide

/-! ## Two concurrent calls of `Set` -/

theorem SetsInv_init (c : SchemaCache) (k1 : String) (a1 : Bytes) (k2 : String) (a2 : Bytes) :
    SetsInv k1 a1 k2 a2 (System.init c k1 a1 k2 a2) := by
  simp [SetsInv, System.init, SetPC.inCritical, SetPC.wrote]

theorem SetsInv_step (k1 : String) (a1 : Bytes) (k2 : String) (a2 : Bytes) (hk : k1 ≠ k2)
    (s : System) (b : Bool) (h : SetsInv k1 a1 k2 a2 s) :
    SetsInv k1 a1 k2 a2 (s.step b) := by
  obtain ⟨⟨⟨w, r⟩, c⟩, ⟨key1, sch1, pc1⟩, ⟨key2, sch2, pc2⟩⟩ := s
  obtain ⟨h1, h2, h3, h4, h5, h6, h7, h8, h9, h10, h11⟩ := h
  simp only at h1 h2 h3 h4 h5 h6 h7 h8 h9 h10 h11
  subst h1 h2 h3 h4 h5 h6
  cases b <;> cases pc1 <;> cases pc2 <;>
    simp_all [SetsInv, System.step, SetCall.step, RWMutex.Lock, RWMutex.Unlock,
      SetPC.inCritical, SetPC.wrote, Get_Set_same, Get_Set_other, Ne.symm hk]

theorem SetsInv_run (k1 : String) (a1 : Bytes) (k2 : String) (a2 : Bytes) (hk : k1 ≠ k2)
    (sched : List Bool) (s : System) (h : SetsInv k1 a1 k2 a2 s) :
    SetsInv k1 a1 k2 a2 (s.run sched) := by
  induction sched generalizing s with
  | nil => exact h
  | cons b sched ih => exact ih (s.step b) (SetsInv_step k1 a1 k2 a2 hk s b h)

/-- C10: two calls `Set(k1, a1)` and `Set(k2, a2)` with `k1 ≠ k2` run concurrently on
one cache: under every schedule of their steps, once both calls have returned,
`Get(k1)` returns `(a1, true)` and `Get(k2)` returns `(a2, true)`. -/
theorem C10_concurrent_sets_keep_both (c : SchemaCache) (k1 : String) (a1 : Bytes)
    (k2 : String) (a2 : Bytes) (sched : List Bool) (hk : k1 ≠ k2)
    (hr1 : ((System.init c k1 a1 k2 a2).run sched).t1.pc = .returned)
    (hr2 : ((System.init c k1 a1 k2 a2).run sched).t2.pc = .returned) :
    ((System.init c k1 a1 k2 a2).run sched).sh.c.Get k1 = (a1, true) ∧
    ((System.init c k1 a1 k2 a2).run sched).sh.c.Get k2 = (a2, true) := by
  have h := SetsInv_run k1 a1 k2 a2 hk sched _ (SetsInv_init c k1 a1 k2 a2)
  obtain ⟨_, _, _, _, _, _, _, _, _, h10, h11⟩ := h
  exact ⟨h10 (by rw [hr1]; rfl), h11 (by rw [hr2]; rfl)⟩

/-- C10 on a schedule in which the second call is blocked in `Lock` three times
while the first call holds the mutex. -/
theorem C10_concurrent_sets_keep_both_witness :
    "/a" ≠ "/b" ∧
    ((System.init (NewSchemaCache.Set "/a" [0]) "/a" [1] "/b" [2]).run
      [false, true, false, true, false, true, false, true, true, true, true]).t1.pc
      = .returned ∧
    ((System.init (NewSchemaCache.Set "/a" [0]) "/a" [1] "/b" [2]).run
      [false, true, false, true, false, true, false, true, true, true, true]).t2.pc
      = .returned ∧
    ((System.init (NewSchemaCache.Set "/a" [0]) "/a" [1] "/b" [2]).run
      [false, true, false, true, false, true, false, true, true, true, true]).sh.c.Get "/a"
      = ([1], true) ∧
    ((System.init (NewSchemaCache.Set "/a" [0]) "/a" [1] "/b" [2]).run
      [false, true, false, true, false, true, false, true, true, true, true]).sh.c.Get "/b"
      = ([2], true) :=
  ⟨by decide, by decide, by decide,
    C10_concurrent_sets_keep_both (NewSchemaCache.Set "/a" [0]) "/a" [1] "/b" [2]
      [false, true, false, true, false, true, false, true, true, true, true]
      (by decide) (by decide) (by decide)⟩

end HelmValuesSchemas
